import Mathlib

/-!
Shallow embedding of the jumpstamper timeline calculator, profile resolver
and pipeline builder, with theorems checking the specification's claims.

Seconds-valued quantities are modelled as rationals, frame numbers as
integers.  Python's built-in `round` (round-half-to-even on the exact value)
is modelled by `pyRound`.
-/

/-- Python's `round` on a real value: nearest integer, ties to even. -/
def pyRound (q : ℚ) : ℤ :=
  let f : ℤ := q.floor
  if q - f < 1/2 then f
  else if (1 : ℚ)/2 < q - f then f + 1
  else if f % 2 = 0 then f else f + 1

/-- The primitive floor used by `pyRound` agrees with the mathematical floor. -/
theorem ratFloor_eq_floor (q : ℚ) : q.floor = ⌊q⌋ := by
  rw [Rat.floor_def, Rat.floor_def']

/-- Unfolding of `pyRound` through the mathematical floor. -/
theorem pyRound_eq (q : ℚ) : pyRound q =
    (if q - ⌊q⌋ < 1/2 then ⌊q⌋
     else if (1 : ℚ)/2 < q - ⌊q⌋ then ⌊q⌋ + 1
     else if ⌊q⌋ % 2 = 0 then ⌊q⌋ else ⌊q⌋ + 1) := by
  rw [pyRound, ratFloor_eq_floor]

/-- Rounding an integer value is the identity. -/
theorem pyRound_intCast (n : ℤ) : pyRound (n : ℚ) = n := by
  rw [pyRound_eq]
  norm_num

/-- StamperArgs.numFrames: `round(seconds * self.framerate)`. -/
def numFrames (seconds rate : ℚ) : ℤ :=
  pyRound (seconds * rate)

/-- StamperArgs.numSecs: `frames / self.framerate`. -/
def numSecs (frames : ℤ) (rate : ℚ) : ℚ :=
  (frames : ℚ) / rate

/-- getFrameRate: the `r_frame_rate` metadata field split on the slash,
each part parsed as a number.  One part: that value; two parts: their
quotient; any other shape: `-1`. -/
def getFrameRate (parts : List ℚ) : ℚ :=
  match parts with
  | [a] => a
  | [a, b] => a / b
  | _ => -1

/-- The user-supplied fields of StamperArgs, with the dataclass defaults.
The source field `annotation` is called `annot` here. -/
structure StamperArgs where
  input_file : String := ""
  output_file : String := ""
  stamp : Bool := false
  slate_time : ℚ := 0
  freeze_time : ℚ := 0
  leadin_time : ℚ := 0
  working_time : ℚ := 0
  jump_time : ℚ := 60
  slate_frame : ℤ := 0
  exit_frame : ℤ := 0
  overlay_prof : String := "default"
  encoder_prof : String := "default"
  annot : String := ""
deriving DecidableEq

/-- The `self.secs` dict: the six named durations in seconds. -/
structure Secs where
  slate : ℚ
  leadin : ℚ
  working : ℚ
  freeze : ℚ
  jump : ℚ
  total : ℚ
deriving DecidableEq

/-- The `self.framenum` dict: the five named frame markers. -/
structure Framenum where
  slate : ℤ
  leadin : ℤ
  exit : ℤ
  freeze : ℤ
  end_ : ℤ
deriving DecidableEq

/-- The `self.frames` dict: the six named durations in frames. -/
structure FrameDur where
  slate : ℤ
  leadin : ℤ
  working : ℤ
  freeze : ℤ
  jump : ℤ
  total : ℤ
deriving DecidableEq

/-- The derived timeline state carried by a StamperArgs instance after
`__post_init__` has run. -/
structure Timeline where
  secs : Secs
  framenum : Framenum
  frames : FrameDur
deriving DecidableEq

/-- StamperArgs.sanity: if the computed lead-in frame marker is negative,
reset it to 0 and recompute the lead-in seconds from the exit frame. -/
def sanity (t : Timeline) (rate : ℚ) : Timeline :=
  if t.framenum.leadin < 0 then
    { t with
      framenum := { t.framenum with leadin := 0 },
      secs := { t.secs with leadin := numSecs t.framenum.exit rate } }
  else t

/-- StamperArgs.post_init (the body of `__post_init__` after the metadata
probe): builds `secs`, `framenum` and `frames` in that order, then runs
`sanity`.  Note `frames` is computed from `secs` before `sanity` runs. -/
def postInit (a : StamperArgs) (rate : ℚ) : Timeline :=
  let secs : Secs := {
    slate := a.slate_time,
    leadin := a.leadin_time,
    working := a.working_time,
    freeze := a.freeze_time,
    jump := a.jump_time,
    total := a.jump_time + a.freeze_time + a.leadin_time + a.slate_time }
  let framenum : Framenum := {
    slate := a.slate_frame,
    leadin := a.exit_frame - numFrames a.leadin_time rate,
    exit := a.exit_frame,
    freeze := a.exit_frame + numFrames a.working_time rate,
    end_ := a.exit_frame + numFrames a.jump_time rate }
  let frames : FrameDur := {
    slate := numFrames secs.slate rate,
    leadin := numFrames secs.leadin rate,
    working := numFrames secs.working rate,
    freeze := numFrames secs.freeze rate,
    jump := numFrames secs.jump rate,
    total := numFrames secs.total rate }
  sanity { secs := secs, framenum := framenum, frames := frames } rate

/-- Error taxonomy named by the specification for timeline construction. -/
inductive StamperError where
  | invalidDuration
  | invalidFrameRate
deriving DecidableEq

/-- buildTimeline: the whole of `__post_init__` as a fallible operation.
The source performs no validation of its own, so no input reaches an
error: the body is exactly `postInit`. -/
def buildTimeline (a : StamperArgs) (rate : ℚ) : Except StamperError Timeline :=
  Except.ok (postInit a rate)

/-- Modelled from the spec (§4.2) for comparison with `pyRound`: round to
nearest with ties away from zero. -/
def roundHalfAwayFromZeroSpec (q : ℚ) : ℤ :=
  if 0 ≤ q then ⌊q + 1/2⌋ else -⌊-q + 1/2⌋

/-- Values stored in the option dicts handed to the media engine:
strings, integers, rationals, or a bare (value-less) flag. -/
inductive PVal where
  | s (v : String)
  | i (v : ℤ)
  | q (v : ℚ)
  | flag
deriving DecidableEq

/-- Python dict update `d[k] = v`: replace in place if the key exists,
otherwise append. -/
def dictSet {α : Type} (d : List (String × α)) (k : String) (v : α) :
    List (String × α) :=
  match d with
  | [] => [(k, v)]
  | (k2, v2) :: rest =>
    if k2 == k then (k, v) :: rest else (k2, v2) :: dictSet rest k v

/-- An option dict, keys in insertion order as Python preserves them. -/
abbrev Dict := List (String × PVal)

/-- Python `{**base, k1: v1, ...}` merging: start from `base` and set each
extra pair in order. -/
def dictMerge (base : Dict) (extras : Dict) : Dict :=
  extras.foldl (fun acc kv => dictSet acc kv.1 kv.2) base

/-- Arguments of a trim filter. -/
structure Trim where
  start_frame : ℤ
  end_frame : ℤ
deriving DecidableEq

/-- Arguments of a loop filter. -/
structure LoopArgs where
  start : ℤ
  loop : ℤ
  size : ℤ
deriving DecidableEq

/-- Arguments of a fade filter. -/
structure FadeArgs where
  type : String
  start_time : ℚ
  duration : ℚ
deriving DecidableEq

/-- The parameter bundles computed by StamperProfiles. -/
structure StamperProfiles where
  common_dt : Dict
  framectr_dt : Dict
  slate_trim : Trim
  jump_trim : Trim
  timer_dt : Dict
  annot_dt : Dict
  freeze_loop : LoopArgs
  jump_fade : FadeArgs
  fps : Dict
  scale : Dict
  input : Dict
  output : Dict
deriving DecidableEq

/-- StamperProfiles body (`__post_init__`): builds every parameter bundle
from the probed metadata and the job, then applies the encoder-profile
overrides in source order.  The job's derived timeline is recomputed here
as the Python object carries it. -/
def mkProfiles (args : StamperArgs) (framerate : ℚ) (vid_w vid_h : ℤ) :
    StamperProfiles :=
  let t := postInit args framerate
  let common_dt : Dict := [
    ("font", PVal.s "Arial"),
    ("rate", PVal.q framerate),
    ("fontcolor", PVal.s "yellow"),
    ("fontsize", PVal.i (pyRound ((vid_h : ℚ) / 12 / 8) * 8)),
    ("box", PVal.i 1),
    ("boxcolor", PVal.s "black@0.5"),
    ("boxborderw", PVal.i 2)]
  let framectr_dt : Dict := dictMerge common_dt [
    ("y", PVal.q ((vid_h : ℚ) * (9/10))),
    ("x", PVal.q ((vid_w : ℚ) * (1/5))),
    ("text", PVal.s "in: %\x7bframe_num\x7d @ %\x7bpts\x7d"),
    ("start_number", PVal.i 0)]
  let slate_trim : Trim := {
    start_frame := t.framenum.slate,
    end_frame := t.framenum.slate + 1 }
  let jump_trim : Trim := {
    start_frame := t.framenum.leadin,
    end_frame := t.framenum.end_ }
  let timer_dt : Dict := dictMerge common_dt [
    ("y", PVal.i 0),
    ("x", PVal.i 0)]
  let annot_fontsize : ℤ := pyRound ((vid_h : ℚ) / 16 / 8) * 8
  let annot_dt : Dict := dictMerge common_dt [
    ("fontsize", PVal.i annot_fontsize),
    ("y", PVal.i (vid_h - annot_fontsize)),
    ("x", PVal.i 0),
    ("text", PVal.s args.annot)]
  let freeze_loop : LoopArgs := {
    start := t.framenum.freeze - t.framenum.leadin + 1,
    loop := t.frames.freeze,
    size := 1 }
  let fade_duration : ℚ := 2
  let jump_fade : FadeArgs := {
    type := "out",
    start_time := t.secs.leadin + t.secs.jump + t.secs.freeze - fade_duration,
    duration := fade_duration }
  let fps : Dict := [("fps", PVal.q framerate)]
  let scale : Dict := [("width", PVal.i vid_w), ("height", PVal.i vid_h)]
  let inputOpts : Dict := [
    ("hide_banner", PVal.flag),
    ("benchmark", PVal.flag),
    ("an", PVal.flag),
    ("y", PVal.flag)]
  let output : Dict := [
    ("c:v", PVal.s "libx264"),
    ("b:v", PVal.s "10M"),
    ("format", PVal.s "mp4")]
  let scale := if args.encoder_prof = "1080_30"
    then [("width", PVal.s "-4"), ("height", PVal.s "1080")] else scale
  let fps := if args.encoder_prof = "1080_30"
    then [("fps", PVal.i 30)] else fps
  let scale := if args.encoder_prof = "quick"
    then [("width", PVal.s "-4"), ("height", PVal.s "480")] else scale
  let output := if args.encoder_prof = "quick"
    then dictSet (dictSet output "crf" (PVal.i 30)) "preset" (PVal.s "veryfast")
    else output
  let output := if args.encoder_prof = "x265_high"
    then dictSet (dictSet (dictSet output "c:v" (PVal.s "libx265"))
      "preset" (PVal.s "slow")) "b:v" (PVal.s "10M")
    else output
  let output := if args.encoder_prof = "qsv_h264"
    then [("c:v", PVal.s "h264_qsv"), ("look_ahead", PVal.s "1"),
      ("look_ahead_depth", PVal.s "40"), ("b:v", PVal.s "5M")]
    else output
  let inputOpts := if args.encoder_prof = "qsv_h264"
    then dictSet (dictSet inputOpts "hwaccel" (PVal.s "qsv"))
      "loglevel" (PVal.s "verbose")
    else inputOpts
  let output := if args.encoder_prof = "qsv_hevc"
    then [("c:v", PVal.s "hevc_qsv"), ("preset", PVal.s "4"),
      ("b:v", PVal.s "10M")]
    else output
  let inputOpts := if args.encoder_prof = "qsv_hevc"
    then dictSet (dictSet inputOpts "hwaccel" (PVal.s "qsv"))
      "loglevel" (PVal.s "verbose")
    else inputOpts
  let output := if args.encoder_prof = "null"
    then [("format", PVal.s "null"), ("y", PVal.flag)]
    else output
  { common_dt := common_dt,
    framectr_dt := framectr_dt,
    slate_trim := slate_trim,
    jump_trim := jump_trim,
    timer_dt := timer_dt,
    annot_dt := annot_dt,
    freeze_loop := freeze_loop,
    jump_fade := jump_fade,
    fps := fps,
    scale := scale,
    input := inputOpts,
    output := output }

/-- One transform stage of the assembled pipeline. -/
inductive Stage where
  | input (opts : Dict)
  | trim (t : Trim)
  | setpts (expr : String)
  | crop (w h x y : String)
  | drawtext (opts : Dict)
  | loop (l : LoopArgs)
  | fade (f : FadeArgs)
deriving DecidableEq

/-- The timer drawtext expression of makeMainJump: the template with both
occurrences of LEADIN substituted by the printed lead-in seconds. -/
def eifTimerText (leadin : ℚ) : String :=
  let l := toString leadin
  "%\x7beif:(trunc(t-" ++ l ++ ")):d:2\x7d.%\x7beif:abs((1M*(t-" ++ l ++
    ")-1M*trunc(t-" ++ l ++ "))/10000):d:2\x7d"

/-- makeMainJump: the main-segment stage sequence.  The timer text is set
to the empty string when the working time is zero, else to the elapsed-time
expression. -/
def makeMainJump (args : StamperArgs) (framerate : ℚ) (vid_w vid_h : ℤ) :
    List Stage :=
  let settings := mkProfiles args framerate vid_w vid_h
  let t := postInit args framerate
  let timerText : String :=
    if args.working_time = 0 then "" else eifTimerText t.secs.leadin
  let timer_dt := dictSet settings.timer_dt "text" (PVal.s timerText)
  [Stage.input settings.input,
   Stage.trim settings.jump_trim,
   Stage.setpts "N/FRAME_RATE/TB",
   Stage.crop "0.8*in_w" "ih" "0.1*in_w" "0",
   Stage.drawtext timer_dt,
   Stage.drawtext settings.annot_dt,
   Stage.loop settings.freeze_loop,
   Stage.setpts "N/FRAME_RATE/TB",
   Stage.fade settings.jump_fade]

/-- The names bound in the body of makeStamped in the source: its parameter
and its local assignments. -/
def makeStampedLocalNames : List String := ["args", "settings", "output"]

/-- The module-level names of the source file. -/
def moduleLevelNames : List String :=
  ["StamperArgs", "StamperProfiles", "jumpParser", "getVideoMetadata",
   "getFrameRate", "makeStamped", "makeSlate", "makeMainJump",
   "joinAndPostFilters", "processJumps", "jumpsFromXlsx", "getCmdLineList"]

/-- makeStamped: builds input then a drawtext stage whose keyword arguments
are the value of the name `framecounter_args`.  That name is resolved in
the local then the module scope; it is bound in neither, so the call raises
NameError before the drawtext stage is built.  (The branch below in which
the name resolves is unreachable; no dict exists for it to return.) -/
def makeStamped (args : StamperArgs) (framerate : ℚ) (vid_w vid_h : ℤ) :
    Except String (List Stage) :=
  let settings := mkProfiles args framerate vid_w vid_h
  if "framecounter_args" ∈ makeStampedLocalNames ++ moduleLevelNames then
    Except.ok [Stage.input settings.input, Stage.drawtext []]
  else
    Except.error "NameError: name framecounter_args is not defined"

/-- One parsed cell value from a worksheet: `none` is an empty cell. -/
abbrev CellVal := Option String

/-- The inner loop of jumpsFromXlsx over one data row: pair each cell with
the row-1 header of its column, keeping (dict-setting) those whose header
is a known parser argument and ignoring the rest with a diagnostic. -/
def rowArgs (headers : List CellVal) (cells : List CellVal)
    (known : List String) : List (String × CellVal) :=
  (headers.zip cells).foldl
    (fun acc hv =>
      match hv.1 with
      | some k => if k ∈ known then dictSet acc k hv.2 else acc
      | none => acc)
    []

/-- Python `d[k]` on the collected row arguments: `none` when the key is
absent (a KeyError in the source). -/
def lookupArg (ja : List (String × CellVal)) (k : String) : Option CellVal :=
  (ja.find? (fun p => p.1 == k)).map Prod.snd

/-- The row filter `all(jump_args[k] is not None for k in [input_file,
output_file])`, with Python's left-to-right short-circuit: a missing key is
a KeyError, a `None` value stops the scan with `false`. -/
def rowKeep (ja : List (String × CellVal)) : Except String Bool :=
  match lookupArg ja "input_file" with
  | none => Except.error "KeyError: input_file"
  | some none => Except.ok false
  | some (some _) =>
    match lookupArg ja "output_file" with
    | none => Except.error "KeyError: output_file"
    | some none => Except.ok false
    | some (some _) => Except.ok true

/-- jumpsFromXlsx: walk the data rows in order, collect each row's known
arguments, and append the row when both required paths are present. -/
def jumpsFromXlsx (headers : List CellVal) (rows : List (List CellVal))
    (known : List String) : Except String (List (List (String × CellVal))) :=
  match rows with
  | [] => Except.ok []
  | row :: rest =>
    let ja := rowArgs headers row known
    match rowKeep ja with
    | Except.error e => Except.error e
    | Except.ok true =>
      match jumpsFromXlsx headers rest known with
      | Except.error e => Except.error e
      | Except.ok l => Except.ok (ja :: l)
    | Except.ok false => jumpsFromXlsx headers rest known

/-- Declarative characterization of the kept rows: both required paths
present among the collected arguments. -/
def keptRow (ja : List (String × CellVal)) : Bool :=
  match lookupArg ja "input_file", lookupArg ja "output_file" with
  | some (some _), some (some _) => true
  | _, _ => false

/-- Helper: `pyRound` returns a nearest integer, and ties go to an even
integer. -/
theorem pyRound_nearest (q : ℚ) :
    |q - (pyRound q : ℚ)| ≤ 1/2 ∧
    (|q - (pyRound q : ℚ)| = 1/2 → pyRound q % 2 = 0) := by
  have hfl : (⌊q⌋ : ℚ) ≤ q := Int.floor_le q
  have hfu : q < ⌊q⌋ + 1 := Int.lt_floor_add_one q
  rw [pyRound_eq]
  split_ifs with h1 h2 h3
  · constructor
    · rw [abs_of_nonneg (by linarith)]
      linarith
    · intro habs
      rw [abs_of_nonneg (by linarith)] at habs
      linarith
  · constructor
    · rw [abs_of_nonpos (by push_cast; linarith)]
      push_cast
      linarith
    · intro habs
      rw [abs_of_nonpos (by push_cast; linarith)] at habs
      push_cast at habs
      linarith
  · have heq : q - ⌊q⌋ = 1/2 := le_antisymm (not_lt.1 h2) (not_lt.1 h1)
    constructor
    · rw [abs_of_nonneg (by linarith)]
      linarith
    · intro _
      exact h3
  · have heq : q - ⌊q⌋ = 1/2 := le_antisymm (not_lt.1 h2) (not_lt.1 h1)
    constructor
    · rw [abs_of_nonpos (by push_cast; linarith)]
      push_cast
      linarith
    · intro _
      omega

/-- C3 (amended): numFrames is seconds times rate rounded to the nearest
integer with ties to even: the result is within one half of the exact
product, and at an exact tie the result is the even neighbour. -/
theorem framesFromSeconds_round_half_even (s r : ℚ) :
    |s * r - (numFrames s r : ℚ)| ≤ 1/2 ∧
    (|s * r - (numFrames s r : ℚ)| = 1/2 → numFrames s r % 2 = 0) :=
  pyRound_nearest (s * r)

unseal Rat.mul Rat.inv Rat.add Rat.sub in
/-- C3 (witness): the tie at 5/2 lands within one half and on an even
result. -/
theorem framesFromSeconds_round_half_even_witness :
    |(5/2 : ℚ) * 1 - (numFrames (5/2) 1 : ℚ)| ≤ 1/2 ∧ numFrames (5/2) 1 % 2 = 0 :=
  ⟨(framesFromSeconds_round_half_even (5/2) 1).1,
   (framesFromSeconds_round_half_even (5/2) 1).2 (by
      norm_num [numFrames, pyRound_eq])⟩

unseal Rat.mul Rat.inv Rat.add Rat.sub in
/-- C3 (counterexample): at the halfway product 5/2 the code rounds to 2,
not to the 3 that rounding half away from zero would give. -/
theorem framesFromSeconds_ties_counterexample :
    numFrames (5/2) 1 = 2 ∧ roundHalfAwayFromZeroSpec ((5/2 : ℚ) * 1) = 3 ∧
    numFrames (5/2) 1 ≠ roundHalfAwayFromZeroSpec ((5/2 : ℚ) * 1) := by
  refine ⟨by decide, ?_, ?_⟩
  · rw [roundHalfAwayFromZeroSpec]
    norm_num
  · rw [roundHalfAwayFromZeroSpec]
    norm_num
    decide

/-- C1: when the computed lead-in frame marker is negative, the built
timeline has lead-in marker exactly 0 and lead-in seconds exactly
`numSecs` of the exit frame; when it is non-negative, both keep their
uncorrected values. -/
theorem leadin_boundary_correction (a : StamperArgs) (r : ℚ)
    (_hr : 0 < r) (_he : 0 ≤ a.exit_frame) :
    (a.exit_frame - numFrames a.leadin_time r < 0 →
      (postInit a r).framenum.leadin = 0 ∧
      (postInit a r).secs.leadin = numSecs a.exit_frame r) ∧
    (0 ≤ a.exit_frame - numFrames a.leadin_time r →
      (postInit a r).framenum.leadin = a.exit_frame - numFrames a.leadin_time r ∧
      (postInit a r).secs.leadin = a.leadin_time) := by
  constructor
  · intro h
    simp only [postInit, sanity]
    rw [if_pos h]
    exact ⟨rfl, rfl⟩
  · intro h
    simp only [postInit, sanity]
    rw [if_neg (not_lt.2 h)]
    exact ⟨rfl, rfl⟩

unseal Rat.mul Rat.inv Rat.add Rat.sub in
/-- C1 (witness): at exit frame 10, lead-in 5 s, rate 30 the correction
fires and yields marker 0 and lead-in seconds 10/30. -/
theorem leadin_boundary_correction_witness :
    (postInit { leadin_time := 5, exit_frame := 10 } 30).framenum.leadin = 0 ∧
    (postInit { leadin_time := 5, exit_frame := 10 } 30).secs.leadin = numSecs 10 30 :=
  (leadin_boundary_correction { leadin_time := 5, exit_frame := 10 } 30
    (by norm_num) (by norm_num)).1 (by decide)

unseal Rat.mul Rat.inv Rat.add Rat.sub in
/-- C6: the worked example from the spec: rate 30, slate 3 s, lead-in 2 s,
working 10 s, freeze 3 s, jump 15 s, exit frame 100, gives lead-in marker
40, freeze marker 400, end marker 550, 90 slate frames and 90 freeze
frames. -/
theorem example_timeline_values :
    (postInit { slate_time := 3, leadin_time := 2, working_time := 10, freeze_time := 3, jump_time := 15, exit_frame := 100 } 30).framenum.leadin = 40 ∧
    (postInit { slate_time := 3, leadin_time := 2, working_time := 10, freeze_time := 3, jump_time := 15, exit_frame := 100 } 30).framenum.freeze = 400 ∧
    (postInit { slate_time := 3, leadin_time := 2, working_time := 10, freeze_time := 3, jump_time := 15, exit_frame := 100 } 30).framenum.end_ = 550 ∧
    (postInit { slate_time := 3, leadin_time := 2, working_time := 10, freeze_time := 3, jump_time := 15, exit_frame := 100 } 30).frames.slate = 90 ∧
    (postInit { slate_time := 3, leadin_time := 2, working_time := 10, freeze_time := 3, jump_time := 15, exit_frame := 100 } 30).frames.freeze = 90 := by
  decide

unseal Rat.mul Rat.inv Rat.add Rat.sub in
/-- C5 (counterexample): with exit frame 10, lead-in 5 s, rate 30 the
correction fires; the stored lead-in frames value is the pre-correction
150, while numFrames of the corrected lead-in seconds is 10. -/
theorem frames_precorrection_counterexample :
    (postInit { leadin_time := 5, exit_frame := 10 } 30).frames.leadin = 150 ∧
    numFrames ((postInit { leadin_time := 5, exit_frame := 10 } 30).secs.leadin) 30 = 10 ∧
    (postInit { leadin_time := 5, exit_frame := 10 } 30).frames.leadin ≠ numFrames ((postInit { leadin_time := 5, exit_frame := 10 } 30).secs.leadin) 30 := by
  decide

/-- C5 (amended): every duration-in-frames value of the built timeline is
numFrames of the corresponding duration-in-seconds value as supplied at
entry, before the lead-in boundary correction. -/
theorem frames_from_entry_seconds (a : StamperArgs) (r : ℚ) :
    (postInit a r).frames.slate = numFrames a.slate_time r ∧
    (postInit a r).frames.leadin = numFrames a.leadin_time r ∧
    (postInit a r).frames.working = numFrames a.working_time r ∧
    (postInit a r).frames.freeze = numFrames a.freeze_time r ∧
    (postInit a r).frames.jump = numFrames a.jump_time r ∧
    (postInit a r).frames.total = numFrames (a.jump_time + a.freeze_time + a.leadin_time + a.slate_time) r := by
  simp only [postInit, sanity]
  split
  · exact ⟨rfl, rfl, rfl, rfl, rfl, rfl⟩
  · exact ⟨rfl, rfl, rfl, rfl, rfl, rfl⟩

/-- C10: the stored total is the entry-time sum of jump, freeze, lead-in
and slate seconds (working time never included), and it is not recomputed
when the lead-in correction fires, so it then differs from the sum of the
stored per-part durations. -/
theorem total_secs_not_recomputed (a : StamperArgs) (r : ℚ) (hr : 0 < r)
    (hfire : a.exit_frame - numFrames a.leadin_time r < 0) :
    (postInit a r).secs.total = a.jump_time + a.freeze_time + a.leadin_time + a.slate_time ∧
    (postInit a r).secs.total ≠ (postInit a r).secs.slate + (postInit a r).secs.leadin + (postInit a r).secs.freeze + (postInit a r).secs.jump := by
  have hproj : (postInit a r).secs.total = a.jump_time + a.freeze_time + a.leadin_time + a.slate_time ∧
      (postInit a r).secs.slate = a.slate_time ∧
      (postInit a r).secs.leadin = numSecs a.exit_frame r ∧
      (postInit a r).secs.freeze = a.freeze_time ∧
      (postInit a r).secs.jump = a.jump_time := by
    simp only [postInit, sanity]
    rw [if_pos hfire]
    exact ⟨rfl, rfl, rfl, rfl, rfl⟩
  obtain ⟨ht, hs, hl, hf, hj⟩ := hproj
  refine ⟨ht, ?_⟩
  rw [ht, hs, hl, hf, hj]
  intro heq
  have hlt : a.leadin_time = numSecs a.exit_frame r := by linarith
  have hnum : numFrames a.leadin_time r = a.exit_frame := by
    rw [hlt]
    unfold numFrames numSecs
    rw [div_mul_cancel₀ _ (ne_of_gt hr)]
    exact pyRound_intCast _
  rw [hnum] at hfire
  omega

unseal Rat.mul Rat.inv Rat.add Rat.sub in
/-- C10 (witness): at exit frame 10, lead-in 5 s, rate 30 the stored total
is 65 while the per-part durations sum differently. -/
theorem total_secs_not_recomputed_witness :
    (postInit { leadin_time := 5, exit_frame := 10 } 30).secs.total = 60 + 0 + 5 + 0 ∧
    (postInit { leadin_time := 5, exit_frame := 10 } 30).secs.total ≠ (postInit { leadin_time := 5, exit_frame := 10 } 30).secs.slate + (postInit { leadin_time := 5, exit_frame := 10 } 30).secs.leadin + (postInit { leadin_time := 5, exit_frame := 10 } 30).secs.freeze + (postInit { leadin_time := 5, exit_frame := 10 } 30).secs.jump :=
  total_secs_not_recomputed { leadin_time := 5, exit_frame := 10 } 30 (by norm_num) (by decide)

/-- C4 (counterexample): a negative slate duration is not rejected:
buildTimeline succeeds instead of failing with InvalidDuration. -/
theorem buildTimeline_no_invalidDuration_counterexample :
    buildTimeline { slate_time := -1 } 30 ≠ Except.error StamperError.invalidDuration ∧
    (buildTimeline { slate_time := -1 } 30).isOk = true :=
  ⟨by simp [buildTimeline], rfl⟩

/-- C4 (amended): buildTimeline validates nothing and always succeeds —
a negative duration flows through into the timeline unchanged — and a
frame-rate field of neither known shape yields the sentinel -1 from
getFrameRate rather than a signalled error. -/
theorem buildTimeline_never_fails (a : StamperArgs) (r : ℚ) (hneg : a.slate_time < 0)
    (parts : List ℚ) (h1 : parts.length ≠ 1) (h2 : parts.length ≠ 2) :
    (∃ t, buildTimeline a r = Except.ok t ∧ t.secs.slate = a.slate_time ∧ t.secs.slate < 0) ∧
    getFrameRate parts = -1 := by
  have hs : (postInit a r).secs.slate = a.slate_time := by
    simp only [postInit, sanity]
    split
    · rfl
    · rfl
  refine ⟨⟨postInit a r, rfl, hs, hs ▸ hneg⟩, ?_⟩
  rcases parts with _ | ⟨x, _ | ⟨y, _ | ⟨z, rest⟩⟩⟩
  · rfl
  · exact absurd rfl h1
  · exact absurd rfl h2
  · rfl

/-- C4 (witness): slate duration -1 at rate 30 builds a timeline carrying
the negative duration, and a three-part frame-rate field gives -1. -/
theorem buildTimeline_never_fails_witness :
    (∃ t, buildTimeline { slate_time := -1 } 30 = Except.ok t ∧ t.secs.slate = -1 ∧ t.secs.slate < 0) ∧
    getFrameRate [1, 2, 3] = -1 :=
  buildTimeline_never_fails { slate_time := -1 } 30 (by norm_num) [1, 2, 3] (by decide) (by decide)

/-- C2: in the main-segment stage list the loop stage starts at the freeze
marker re-based into the trimmed stream (freeze marker minus lead-in
marker, plus one) and repeats for numFrames of the freeze seconds. -/
theorem freeze_loop_rebased (a : StamperArgs) (r : ℚ) (vid_w vid_h : ℤ)
    (_hstamp : a.stamp = false) :
    (makeMainJump a r vid_w vid_h)[6]? =
      some (Stage.loop { start := (postInit a r).framenum.freeze - (postInit a r).framenum.leadin + 1, loop := numFrames (postInit a r).secs.freeze r, size := 1 }) := by
  have hfr : (postInit a r).frames.freeze = numFrames (postInit a r).secs.freeze r := by
    simp only [postInit, sanity]
    split
    · rfl
    · rfl
  simp [makeMainJump, mkProfiles, hfr]

unseal Rat.mul Rat.inv Rat.add Rat.sub in
/-- C2 (witness): with all-default arguments at rate 30 the loop stage is
at offset 1 with zero repetitions. -/
theorem freeze_loop_rebased_witness :
    (makeMainJump {} 30 1920 1080)[6]? = some (Stage.loop { start := 1, loop := 0, size := 1 }) :=
  freeze_loop_rebased {} 30 1920 1080 rfl

/-- C7: an encoder-profile identifier outside the known set resolves to
exactly the default output, scale, frame-rate and input bundles. -/
theorem unknown_encoder_prof_defaults (a : StamperArgs) (r : ℚ) (vid_w vid_h : ℤ)
    (hu : a.encoder_prof ∉ ["default", "1080_30", "quick", "x265_high", "qsv_h264", "qsv_hevc", "null"]) :
    (mkProfiles a r vid_w vid_h).output = (mkProfiles { a with encoder_prof := "default" } r vid_w vid_h).output ∧
    (mkProfiles a r vid_w vid_h).scale = (mkProfiles { a with encoder_prof := "default" } r vid_w vid_h).scale ∧
    (mkProfiles a r vid_w vid_h).fps = (mkProfiles { a with encoder_prof := "default" } r vid_w vid_h).fps ∧
    (mkProfiles a r vid_w vid_h).input = (mkProfiles { a with encoder_prof := "default" } r vid_w vid_h).input := by
  simp only [List.mem_cons, List.not_mem_nil, or_false, not_or] at hu
  obtain ⟨h0, h1, h2, h3, h4, h5, h6⟩ := hu
  refine ⟨?_, ?_, ?_, ?_⟩ <;>
    simp [mkProfiles, h1, h2, h3, h4, h5, h6]

/-- C7 (witness): the unknown identifier custom resolves to the default
bundles. -/
theorem unknown_encoder_prof_defaults_witness :
    (mkProfiles { encoder_prof := "custom" } 30 1920 1080).output = (mkProfiles { encoder_prof := "default" } 30 1920 1080).output ∧
    (mkProfiles { encoder_prof := "custom" } 30 1920 1080).scale = (mkProfiles { encoder_prof := "default" } 30 1920 1080).scale ∧
    (mkProfiles { encoder_prof := "custom" } 30 1920 1080).fps = (mkProfiles { encoder_prof := "default" } 30 1920 1080).fps ∧
    (mkProfiles { encoder_prof := "custom" } 30 1920 1080).input = (mkProfiles { encoder_prof := "default" } 30 1920 1080).input :=
  unknown_encoder_prof_defaults { encoder_prof := "custom" } 30 1920 1080 (by decide)

/-- C8: every stamp-only invocation hits the undefined name
`framecounter_args` in makeStamped and raises NameError instead of
building the input, frame-counter overlay, scale, frame-rate and encode
pipeline with the resolved frame-counter bundle. -/
theorem makeStamped_nameError (a : StamperArgs) (r : ℚ) (vid_w vid_h : ℤ) :
    makeStamped a r vid_w vid_h = Except.error "NameError: name framecounter_args is not defined" := by
  simp only [makeStamped]
  rw [if_neg (by decide)]

/-- Helper: the boolean row filter `keptRow` agrees with the fallible
source filter `rowKeep` whenever the latter does not raise. -/
theorem keptRow_of_rowKeep (ja : List (String × CellVal)) (b : Bool)
    (h : rowKeep ja = Except.ok b) : keptRow ja = b := by
  unfold rowKeep at h
  unfold keptRow
  rcases h1 : lookupArg ja "input_file" with _ | (_ | v1) <;>
    rcases h2 : lookupArg ja "output_file" with _ | (_ | v2) <;>
    simp_all

/-- C9: when parsing succeeds, the job list is exactly the rows, in order,
mapped to their recognized-header cells and filtered to those with both
required paths present. -/
theorem jumpsFromXlsx_filter (headers : List CellVal) (rows : List (List CellVal))
    (known : List String) (jobs : List (List (String × CellVal)))
    (hok : jumpsFromXlsx headers rows known = Except.ok jobs) :
    jobs = (rows.map (fun row => rowArgs headers row known)).filter keptRow := by
  induction rows generalizing jobs with
  | nil =>
    simp only [jumpsFromXlsx] at hok
    injection hok with h
    simp [← h]
  | cons row rest ih =>
    simp only [jumpsFromXlsx] at hok
    cases hkeep : rowKeep (rowArgs headers row known) with
    | error e =>
      rw [hkeep] at hok
      cases hok
    | ok b =>
      rw [hkeep] at hok
      have hb := keptRow_of_rowKeep _ _ hkeep
      cases b with
      | true =>
        cases hrec : jumpsFromXlsx headers rest known with
        | error e =>
          rw [hrec] at hok
          cases hok
        | ok l =>
          rw [hrec] at hok
          injection hok with h
          rw [← h, List.map_cons, List.filter_cons, hb]
          simp [ih l hrec]
      | false =>
        rw [List.map_cons, List.filter_cons, hb]
        simpa using ih jobs hok

/-- C9 (witness): a sheet with a recognized bogus-free pair of rows keeps
only the complete first row, with exactly its recognized cells. -/
theorem jumpsFromXlsx_filter_witness :
    ([[("input_file", some "a"), ("output_file", some "b")]] : List (List (String × CellVal))) =
      ([[some "a", some "b", some "x"], [some "c", none, some "y"]].map (fun row => rowArgs [some "input_file", some "output_file", some "bogus"] row ["input_file", "output_file"])).filter keptRow :=
  jumpsFromXlsx_filter [some "input_file", some "output_file", some "bogus"] [[some "a", some "b", some "x"], [some "c", none, some "y"]] ["input_file", "output_file"] [[("input_file", some "a"), ("output_file", some "b")]] rfl
